import Mathlib

/-!
Shallow embedding of the PCI configuration-space controller from
`src/hardware/pci_bus.cpp` (dosbox-pure).

Conventions of the embedding:
* machine integers are `Nat` (unsigned) or `Int` (the `Bits` typedef); a
  conversion to `Bit8u` is an explicit `% 256` (the helper `bit8`);
* the file-scope globals (`pci_caddress`, `pci_devices_installed`,
  `pci_cfg_data`, `pci_devices`, the pending-registration queue) together
  with the lifecycle flags of the `PCI` module object form one record,
  `BusState`, threaded explicitly through every operation;
* a `PCI_Device` is its identity, its four virtual hooks (arbitrary Lean
  functions, since concrete device models override them), its assigned
  `(pci_id, pci_subfunction)` pair, and its subdevice table; the hooks
  receive the 256-byte bank of the device (the concrete device model in the
  source reads its own bank through the global array);
* `E_Exit` (a fatal abort) is a distinguished outcome that carries the
  state as it was at the abort point.
-/

/-- Modelled from the spec: `PCI_MAX_PCIDEVICES` is defined in `pci_bus.h`,
which is not part of the sources here; the spec fixes the slot table at 32
entries (slot numbers 0..31, the 5-bit device field of the address latch). -/
def PCI_MAX_PCIDEVICES : Nat := 32

/-- Modelled from the spec: `PCI_MAX_PCIFUNCTIONS` is defined in `pci_bus.h`,
which is not part of the sources here; the spec fixes 8 functions per slot
(one primary plus up to 7 secondary functions, the 3-bit function field). -/
def PCI_MAX_PCIFUNCTIONS : Nat := 8

/-- Conversion to `Bit8u`: truncation to the low 8 bits. -/
def bit8 (x : Nat) : Nat := x % 256

/-- Identity and virtual hooks of a PCI device (the part of `PCI_Device`
that a concrete device model supplies). Each hook receives the 256-byte
configuration bank of the device as its first argument. -/
structure DeviceOps where
  vendor_id : Nat
  device_id : Nat
  parse_write_register : (Nat → Nat) → Nat → Nat → Int
  parse_read_register : (Nat → Nat) → Nat → Int
  override_read_register : (Nat → Nat) → Nat → Option (Nat × Nat)
  initialize_registers : (Nat → Nat) → ((Nat → Nat) × Bool)

/-- A `PCI_Device` object: hooks and identity, the assigned
`(pci_id, pci_subfunction)` pair (`-1` when unassigned), the subdevice
counter and the subdevice pointer table. -/
inductive PCI_Device : Type where
  | mk (ops : DeviceOps) (pci_id : Int) (pci_subfunction : Int)
       (num_subdevices : Nat) (subdevices : Nat → Option PCI_Device)

def PCI_Device.ops : PCI_Device → DeviceOps
  | .mk o _ _ _ _ => o

def PCI_Device.pci_id : PCI_Device → Int
  | .mk _ i _ _ _ => i

def PCI_Device.pci_subfunction : PCI_Device → Int
  | .mk _ _ s _ _ => s

def PCI_Device.num_subdevices : PCI_Device → Nat
  | .mk _ _ _ n _ => n

def PCI_Device.subdevices : PCI_Device → Nat → Option PCI_Device
  | .mk _ _ _ _ f => f

def PCI_Device.VendorID (d : PCI_Device) : Nat := d.ops.vendor_id

def PCI_Device.DeviceID (d : PCI_Device) : Nat := d.ops.device_id

def PCI_Device.PCIId (d : PCI_Device) : Int := d.pci_id

def PCI_Device.PCISubfunction (d : PCI_Device) : Int := d.pci_subfunction

def PCI_Device.NumSubdevices (d : PCI_Device) : Nat := d.num_subdevices

/-- The `PCI_Device` constructor: identity set, no slot assigned yet, no
subdevices (the constructor zeroes the subdevice table with `memset`). -/
def PCI_Device.make (ops : DeviceOps) : PCI_Device :=
  .mk ops (-1) (-1) 0 (fun _ => none)

/-- `PCI_Device::SetPCIId`: stores the slot number if it is in range; the
subfunction is stored when `0 <= subfct < PCI_MAX_PCIFUNCTIONS-1`, else `-1`. -/
def PCI_Device.SetPCIId (d : PCI_Device) (number : Int) (subfct : Int) : PCI_Device :=
  if 0 ≤ number ∧ number < (PCI_MAX_PCIDEVICES : Int) then
    .mk d.ops number
      (if 0 ≤ subfct ∧ subfct < ((PCI_MAX_PCIFUNCTIONS : Int) - 1) then subfct else -1)
      d.num_subdevices d.subdevices
  else d

/-- Outcome of `PCI_Device::AddSubdevice`: success with the updated primary,
the `E_Exit` abort (subdevice slot already in use), or `false`. -/
inductive AddSubdeviceResult where
  | ok (primary : PCI_Device)
  | fatal
  | failed

/-- `PCI_Device::AddSubdevice`: appends `dev` at index `num_subdevices` of
the subdevice table and increments the counter; aborts via `E_Exit` when the
target entry is already occupied; returns `false` when the table is full. -/
def PCI_Device.AddSubdevice (d : PCI_Device) (dev : PCI_Device) : AddSubdeviceResult :=
  if d.num_subdevices < PCI_MAX_PCIFUNCTIONS - 1 then
    if (d.subdevices d.num_subdevices).isSome then .fatal
    else .ok (.mk d.ops d.pci_id d.pci_subfunction (d.num_subdevices + 1)
      (fun i => if i = d.num_subdevices then some dev else d.subdevices i))
  else .failed

/-- `PCI_Device::GetSubdevice`: function 0 is the device itself; function
`f` with `1 <= f <= num_subdevices` is entry `f-1` of the subdevice table;
anything else resolves to no device. -/
def PCI_Device.GetSubdevice (d : PCI_Device) (subfct : Nat) : Option PCI_Device :=
  if subfct ≥ PCI_MAX_PCIFUNCTIONS then none
  else if subfct > 0 then
    (if subfct ≤ d.NumSubdevices then d.subdevices (subfct - 1) else none)
  else some d

/-- Modelled from the spec: `GetNextSubdeviceNumber` is declared in
`pci_bus.h`, which is not part of the sources here. Per the spec, a further
registration to an occupied slot is appended as the next secondary function,
with function index `subdevice_count + 1`, and fails when the primary
already holds `PCI_MAX_PCIFUNCTIONS - 1 = 7` secondary functions. -/
def PCI_Device.GetNextSubdeviceNumber (d : PCI_Device) : Int :=
  if d.num_subdevices < PCI_MAX_PCIFUNCTIONS - 1 then (d.num_subdevices : Int) + 1
  else -1

/-- Bound of the pending-registration queue (`max_rqueued_devices`). -/
def max_rqueued_devices : Nat := 16

/-- The file-scope globals of `pci_bus.cpp` together with the lifecycle
flags of the `PCI` module object. `pci_cfg_data` is indexed by the `Bits`
values `PCIId` and `PCISubfunction` and an 8-bit register offset. -/
structure BusState where
  pci_caddress : Nat
  pci_devices_installed : Nat
  pci_cfg_data : Int → Int → Nat → Nat
  pci_devices : Int → Option PCI_Device
  rqueued_devices : List PCI_Device
  pci_initialized : Bool
  ports_installed : Bool
  callback_installed : Bool

/-- The 256-byte configuration bank of a device, as the device hooks see it:
`pci_cfg_data[dev->PCIId()][dev->PCISubfunction()]`. -/
def BusState.bank (st : BusState) (dev : PCI_Device) : Nat → Nat :=
  fun r => st.pci_cfg_data dev.PCIId dev.PCISubfunction r

/-- Pointwise update of one byte of `pci_cfg_data`. -/
def BusState.storeCfg (st : BusState) (i j : Int) (r v : Nat) : BusState :=
  { st with pci_cfg_data := fun a b c =>
      if a = i ∧ b = j ∧ c = r then v else st.pci_cfg_data a b c }

/-- The state of the globals before anything ran: statics are zero
initialized, the slot table and the queue are empty. -/
def initialBusState : BusState :=
  { pci_caddress := 0
    pci_devices_installed := 0
    pci_cfg_data := fun _ _ _ => 0
    pci_devices := fun _ => none
    rqueued_devices := []
    pci_initialized := false
    ports_installed := false
    callback_installed := false }

/-- `write_pci_addr`: the address port stores the written value verbatim
(cast to `Bit32u`). -/
def write_pci_addr (st : BusState) (val : Nat) : BusState :=
  { st with pci_caddress := val % 2 ^ 32 }

/-- `read_pci_addr`: the address port reads back the latch verbatim. -/
def read_pci_addr (st : BusState) : Nat := st.pci_caddress

/-- `write_pci_register`: drops writes to the globally read-only registers
`0x00-0x03`, `0x06-0x0b`, `0x0e`; under a standard header (low 7 bits of
register `0x0e` equal to 0) additionally drops writes to `0x28-0x2f`; then
lets `ParseWriteRegister` replace or discard the value; a nonnegative result
is stored (as `Bit8u`) into the bank of the device. -/
def write_pci_register (st : BusState) (dev : PCI_Device) (regnum value : Nat) : BusState :=
  if regnum < 0x04 ∨ (0x06 ≤ regnum ∧ regnum < 0x0c) ∨ regnum = 0x0e then st
  else if (st.pci_cfg_data dev.PCIId dev.PCISubfunction 0x0e) &&& 0x7f = 0x00
          ∧ 0x28 ≤ regnum ∧ regnum < 0x30 then st
  else
    let parsed := dev.ops.parse_write_register (st.bank dev) regnum value
    if 0 ≤ parsed then
      st.storeCfg dev.PCIId dev.PCISubfunction regnum (parsed.toNat &&& 0xff)
    else st

/-- `read_pci_register`: registers `0x00-0x03` come from the vendor and
device id fields; register `0x0e` is the stored byte with bit 7 synthesized
from the subdevice count; otherwise `ParseReadRegister` may remap the
lookup to another offset in `0..255`; failing that, `OverrideReadRegister`
may blend a computed value into the stored byte under a mask (all three
quantities are `Bit8u`); failing that, the result is `0xff`. -/
def read_pci_register (st : BusState) (dev : PCI_Device) (regnum : Nat) : Nat :=
  if regnum = 0x00 then dev.VendorID &&& 0xff
  else if regnum = 0x01 then (dev.VendorID >>> 8) &&& 0xff
  else if regnum = 0x02 then dev.DeviceID &&& 0xff
  else if regnum = 0x03 then (dev.DeviceID >>> 8) &&& 0xff
  else if regnum = 0x0e then
    ((st.pci_cfg_data dev.PCIId dev.PCISubfunction regnum) &&& 0x7f) |||
      (if dev.NumSubdevices > 0 then 0x80 else 0x00)
  else
    let parsed := dev.ops.parse_read_register (st.bank dev) regnum
    if 0 ≤ parsed ∧ parsed < 256 then
      bit8 (st.pci_cfg_data dev.PCIId dev.PCISubfunction parsed.toNat)
    else
      match dev.ops.override_read_register (st.bank dev) regnum with
      | some (newval, mask) =>
          (bit8 (st.pci_cfg_data dev.PCIId dev.PCISubfunction regnum)
             &&& (0xff ^^^ bit8 mask)) ||| (bit8 newval &&& bit8 mask)
      | none => 0xff

/-- `write_pci`: a data-port write; checks the enable bit and bus byte of
the latch, decodes device, function and base register, validates the target
and dispatches 1, 2 or 4 single-byte register writes (little-endian byte
decomposition of `val`, register index truncated to `Bit8u`). -/
def write_pci (st : BusState) (port val iolen : Nat) : BusState :=
  if st.pci_caddress &&& 0x80ff0000 = 0x80000000 then
    let devnum := (st.pci_caddress >>> 11) &&& 0x1f
    let fctnum := (st.pci_caddress >>> 8) &&& 0x7
    let regnum := bit8 ((st.pci_caddress &&& 0xfc) + (port &&& 0x03))
    if devnum ≥ st.pci_devices_installed then st
    else
      match st.pci_devices (devnum : Int) with
      | none => st
      | some masterdev =>
        if fctnum > masterdev.NumSubdevices then st
        else
          match masterdev.GetSubdevice fctnum with
          | none => st
          | some dev =>
            match iolen with
            | 1 => write_pci_register st dev regnum (val &&& 0xff)
            | 2 =>
                write_pci_register
                  (write_pci_register st dev regnum (val &&& 0xff))
                  dev (bit8 (regnum + 1)) ((val >>> 8) &&& 0xff)
            | 4 =>
                write_pci_register
                  (write_pci_register
                    (write_pci_register
                      (write_pci_register st dev regnum (val &&& 0xff))
                      dev (bit8 (regnum + 1)) ((val >>> 8) &&& 0xff))
                    dev (bit8 (regnum + 2)) ((val >>> 16) &&& 0xff))
                  dev (bit8 (regnum + 3)) ((val >>> 24) &&& 0xff)
            | _ => st
  else st

/-- `read_pci`: a data-port read; same enable check, decode and validation
as `write_pci`; a valid target yields 1, 2 or 4 single-byte register reads
composed little-endian; every invalid path returns `0xffffffff`. -/
def read_pci (st : BusState) (port iolen : Nat) : Nat :=
  if st.pci_caddress &&& 0x80ff0000 = 0x80000000 then
    let devnum := (st.pci_caddress >>> 11) &&& 0x1f
    let fctnum := (st.pci_caddress >>> 8) &&& 0x7
    let regnum := bit8 ((st.pci_caddress &&& 0xfc) + (port &&& 0x03))
    if devnum ≥ st.pci_devices_installed then 0xffffffff
    else
      match st.pci_devices (devnum : Int) with
      | none => 0xffffffff
      | some masterdev =>
        if fctnum > masterdev.NumSubdevices then 0xffffffff
        else
          match masterdev.GetSubdevice fctnum with
          | none => 0xffffffff
          | some dev =>
            match iolen with
            | 1 => read_pci_register st dev regnum
            | 2 =>
                read_pci_register st dev regnum |||
                  (read_pci_register st dev (bit8 (regnum + 1)) <<< 8)
            | 4 =>
                read_pci_register st dev regnum |||
                  (read_pci_register st dev (bit8 (regnum + 1)) <<< 8) |||
                  (read_pci_register st dev (bit8 (regnum + 2)) <<< 16) |||
                  (read_pci_register st dev (bit8 (regnum + 3)) <<< 24)
            | _ => 0xffffffff
  else 0xffffffff

/-- `PCI::InitializePCI`: installs the address and data port handlers and
the fixed callback, zeroes the configuration store and sets the lifecycle
flag. -/
def InitializePCI (st : BusState) : BusState :=
  { st with ports_installed := true
            callback_installed := true
            pci_cfg_data := fun _ _ _ => 0
            pci_initialized := true }

/-- Outcome of `PCI::RegisterPCIDevice`: the resolved slot on success, `-1`
on a rejected registration, or the `E_Exit` abort. -/
inductive RegOutcome where
  | ok (slot : Int)
  | err
  | fatal

/-- `PCI::RegisterPCIDevice`: validates the requested slot (or picks the
next free one), lazily initializes the controller, resolves the function
number (0 for an empty slot, the next secondary index for an occupied one,
aborting when the slot is full), lets the device populate its bank via
`InitializeRegisters` (the bank is written through the passed pointer in
either case), and on success assigns the identity and enters the device
into the slot table (incrementing the installed count) or appends it to the
subdevice table of the primary. -/
def RegisterPCIDevice (st : BusState) (device : Option PCI_Device) (slot : Int) :
    RegOutcome × BusState :=
  match device with
  | none => (.err, st)
  | some device =>
    if 0 ≤ slot ∧ (PCI_MAX_PCIDEVICES : Int) ≤ slot then (.err, st)
    else if slot < 0 ∧ PCI_MAX_PCIDEVICES ≤ st.pci_devices_installed then (.err, st)
    else
      let st1 := if st.pci_initialized then st else InitializePCI st
      let slot1 : Int := if slot < 0 then (st.pci_devices_installed : Int) else slot
      let subfunction : Int :=
        match st1.pci_devices slot1 with
        | none => 0
        | some primary => primary.GetNextSubdeviceNumber
      if subfunction < 0 then (.fatal, st1)
      else
        let res := device.ops.initialize_registers (fun r => st1.pci_cfg_data slot1 subfunction r)
        let st2 := { st1 with pci_cfg_data := fun a b c =>
                      if a = slot1 ∧ b = subfunction then bit8 (res.1 c)
                      else st1.pci_cfg_data a b c }
        if res.2 then
          let device1 := device.SetPCIId slot1 subfunction
          match st2.pci_devices slot1 with
          | none =>
              (.ok slot1,
               { st2 with
                  pci_devices := fun i => if i = slot1 then some device1 else st2.pci_devices i
                  pci_devices_installed := st2.pci_devices_installed + 1 })
          | some primary =>
              match primary.AddSubdevice device1 with
              | .fatal => (.fatal, st2)
              | .ok primary1 =>
                  (.ok slot1,
                   { st2 with
                      pci_devices := fun i => if i = slot1 then some primary1 else st2.pci_devices i })
              | .failed => (.ok slot1, st2)
        else (.err, st2)

/-- `PCI::Deinitialize`: clears the lifecycle flag, the installed count, the
queue count and the latch, zeroes the configuration store and uninstalls
the port handlers and the callback. The slot table `pci_devices` is not
touched. -/
def Deinitialize (st : BusState) : BusState :=
  { st with pci_initialized := false
            pci_devices_installed := 0
            rqueued_devices := []
            pci_caddress := 0
            pci_cfg_data := fun _ _ _ => 0
            ports_installed := false
            callback_installed := false }

/-- The `PCI` module constructor: clears the lifecycle flag, the installed
count and the slot table, then drains the pending-registration queue in
FIFO order through `RegisterPCIDevice` (auto slot) and empties the queue. -/
def PCI_construct (st : BusState) : BusState :=
  let st0 := { st with pci_initialized := false
                       pci_devices_installed := 0
                       pci_devices := fun _ => none }
  let st1 := st.rqueued_devices.foldl (fun s d => (RegisterPCIDevice s (some d) (-1)).2) st0
  { st1 with rqueued_devices := [] }

/-- `PCI_AddDevice`: with a live interface the device goes through
`RegisterPCIDevice`; otherwise it is appended to the pending queue when
the queue is below its bound, and dropped otherwise. -/
def PCI_AddDevice (hasInterface : Bool) (st : BusState) (dev : PCI_Device) : BusState :=
  if hasInterface then (RegisterPCIDevice st (some dev) (-1)).2
  else if st.rqueued_devices.length < max_rqueued_devices then
    { st with rqueued_devices := st.rqueued_devices ++ [dev] }
  else st

/-! ## Helper definitions for the claim statements -/

/-- The device with its `ParseWriteRegister` hook replaced; used to state
that a code path never consults that hook. -/
def withParseWrite (d : PCI_Device) (f : (Nat → Nat) → Nat → Nat → Int) : PCI_Device :=
  .mk { d.ops with parse_write_register := f } d.pci_id d.pci_subfunction
    d.num_subdevices d.subdevices

theorem withParseWrite_PCIId (d : PCI_Device) (f : (Nat → Nat) → Nat → Nat → Int) :
    (withParseWrite d f).PCIId = d.PCIId := rfl

theorem withParseWrite_PCISubfunction (d : PCI_Device) (f : (Nat → Nat) → Nat → Nat → Int) :
    (withParseWrite d f).PCISubfunction = d.PCISubfunction := rfl

/-! ## Concrete fixtures used by the witness theorems -/

/-- A pass-through device model: writes commit the written value, reads use
neither the remap hook nor the override hook, register initialization
succeeds leaving the bank as it was. -/
def passOps : DeviceOps :=
  { vendor_id := 0x5333
    device_id := 0x8811
    parse_write_register := fun _ _ value => (value : Int)
    parse_read_register := fun _ _ => -1
    override_read_register := fun _ _ => none
    initialize_registers := fun bank => (bank, true) }

/-- A fresh pass-through device. -/
def passDevice : PCI_Device := PCI_Device.make passOps

/-- The pass-through device as it looks after registration into slot 0,
function 0. -/
def passDevice00 : PCI_Device := PCI_Device.mk passOps 0 0 0 (fun _ => none)

/-- A concrete state: the pass-through device sits at slot 0, function 0 of
an initialized controller, with the address latch set to `0x80000010`
(enabled access to device 0, function 0, register `0x10`). -/
def oneDevState : BusState :=
  { pci_caddress := 0x80000010
    pci_devices_installed := 1
    pci_cfg_data := fun _ _ _ => 0
    pci_devices := fun i => if i = 0 then some passDevice00 else none
    rqueued_devices := []
    pci_initialized := true
    ports_installed := true
    callback_installed := true }

/-! ## C3 -/

/-- C3: for every device, every value, every replacement for the
`ParseWriteRegister` hook, and every register in `0x00-0x03`, `0x06-0x0b`,
`0x0e`, a single-register write leaves the whole state unchanged; the same
holds for registers `0x28-0x2f` when the stored header-type byte has its
low 7 bits zero. The quantification over the hook expresses that the hook
is never invoked on these paths. -/
theorem write_readonly_registers_unchanged
    (st : BusState) (dev : PCI_Device) (f : (Nat → Nat) → Nat → Nat → Int)
    (r v : Nat)
    (h : (r < 0x04 ∨ (0x06 ≤ r ∧ r < 0x0c) ∨ r = 0x0e) ∨
         ((st.pci_cfg_data dev.PCIId dev.PCISubfunction 0x0e) &&& 0x7f = 0x00 ∧
           0x28 ≤ r ∧ r < 0x30)) :
    write_pci_register st (withParseWrite dev f) r v = st := by
  unfold write_pci_register
  rcases h with h | ⟨h0e, h1, h2⟩
  · rw [if_pos h]
  · rw [if_neg (by omega), if_pos ⟨by
      rw [withParseWrite_PCIId, withParseWrite_PCISubfunction]; exact h0e, h1, h2⟩]

/-- Witness for C3 at a concrete input: register `0x0e` of the registered
pass-through device, arbitrary hook replaced by a constant hook. -/
theorem write_readonly_registers_unchanged_witness :
    write_pci_register oneDevState (withParseWrite passDevice00 (fun _ _ _ => 0)) 0x0e 0x55 =
      oneDevState :=
  write_readonly_registers_unchanged oneDevState passDevice00 (fun _ _ _ => 0) 0x0e 0x55
    (Or.inl (Or.inr (Or.inr rfl)))

/-! ## C4 -/

/-- C4: for a single-register read of a register outside `0x00-0x03` and
`0x0e`: a remap result of `ParseReadRegister` in `0..255` selects the
stored byte at the remapped offset; otherwise an override pair
`(value, mask)` yields `(stored_byte &&& ~mask) ||| (value &&& mask)`
(8-bit complement written as `0xff ^^^ mask`); otherwise the result is
`0xff`. All bytes of the bank are below 256, as are the override outputs
(they are `Bit8u` in the source). -/
theorem read_register_resolution
    (st : BusState) (dev : PCI_Device) (r : Nat)
    (hr : ¬(r = 0x00 ∨ r = 0x01 ∨ r = 0x02 ∨ r = 0x03 ∨ r = 0x0e))
    (hbytes : ∀ o : Nat, st.pci_cfg_data dev.PCIId dev.PCISubfunction o < 256) :
    (∀ p : Int, dev.ops.parse_read_register (st.bank dev) r = p → 0 ≤ p → p < 256 →
        read_pci_register st dev r = st.pci_cfg_data dev.PCIId dev.PCISubfunction p.toNat) ∧
    (¬(0 ≤ dev.ops.parse_read_register (st.bank dev) r ∧
        dev.ops.parse_read_register (st.bank dev) r < 256) →
      ∀ v m : Nat, dev.ops.override_read_register (st.bank dev) r = some (v, m) →
        v < 256 → m < 256 →
        read_pci_register st dev r =
          ((st.pci_cfg_data dev.PCIId dev.PCISubfunction r) &&& (0xff ^^^ m)) |||
            (v &&& m)) ∧
    (¬(0 ≤ dev.ops.parse_read_register (st.bank dev) r ∧
        dev.ops.parse_read_register (st.bank dev) r < 256) →
      dev.ops.override_read_register (st.bank dev) r = none →
      read_pci_register st dev r = 0xff) := by
  push_neg at hr
  obtain ⟨h0, h1, h2, h3, he⟩ := hr
  refine ⟨?_, ?_, ?_⟩
  · intro p hp hp0 hp256
    unfold read_pci_register
    rw [if_neg h0, if_neg h1, if_neg h2, if_neg h3, if_neg he]
    simp only [hp]
    rw [if_pos ⟨hp0, hp256⟩]
    have := hbytes p.toNat
    unfold bit8
    omega
  · intro hnp v m hov hv hm
    unfold read_pci_register
    rw [if_neg h0, if_neg h1, if_neg h2, if_neg h3, if_neg he]
    simp only [if_neg hnp, hov]
    have h1 := hbytes r
    rw [show bit8 (st.pci_cfg_data dev.PCIId dev.PCISubfunction r) =
          st.pci_cfg_data dev.PCIId dev.PCISubfunction r from by unfold bit8; omega,
        show bit8 m = m from by unfold bit8; omega,
        show bit8 v = v from by unfold bit8; omega]
  · intro hnp hov
    unfold read_pci_register
    rw [if_neg h0, if_neg h1, if_neg h2, if_neg h3, if_neg he]
    simp only [if_neg hnp, hov]

/-- Witness for C4 at a concrete input: the pass-through device declines
both hooks on register `0x10`, so the read falls through to `0xff`. -/
theorem read_register_resolution_witness :
    read_pci_register oneDevState passDevice00 0x10 = 0xff :=
  (read_register_resolution oneDevState passDevice00 0x10 (by decide)
    (fun o => by simp [oneDevState])).2.2
    (by decide) rfl

/-! ## C2 -/

/-- Any of the four invalid conditions makes a data-port write return the
state unchanged, for every access width. -/
theorem write_pci_invalid (st : BusState) (port val iolen : Nat)
    (hbad : st.pci_caddress &&& 0x80ff0000 ≠ 0x80000000 ∨
        st.pci_devices_installed ≤ (st.pci_caddress >>> 11) &&& 0x1f ∨
        st.pci_devices (((st.pci_caddress >>> 11) &&& 0x1f : Nat) : Int) = none ∨
        (∃ master, st.pci_devices (((st.pci_caddress >>> 11) &&& 0x1f : Nat) : Int) = some master ∧
          master.NumSubdevices < (st.pci_caddress >>> 8) &&& 0x7)) :
    write_pci st port val iolen = st := by
  rcases hbad with h | h | h | ⟨master, hm, hlt⟩
  · simp [write_pci, h]
  · simp [write_pci, ge_iff_le, h]
  · simp [write_pci, h]
  · simp [write_pci, hm, gt_iff_lt, hlt]

/-- Any of the four invalid conditions makes a data-port read return
`0xffffffff`, for every access width. -/
theorem read_pci_invalid (st : BusState) (port iolen : Nat)
    (hbad : st.pci_caddress &&& 0x80ff0000 ≠ 0x80000000 ∨
        st.pci_devices_installed ≤ (st.pci_caddress >>> 11) &&& 0x1f ∨
        st.pci_devices (((st.pci_caddress >>> 11) &&& 0x1f : Nat) : Int) = none ∨
        (∃ master, st.pci_devices (((st.pci_caddress >>> 11) &&& 0x1f : Nat) : Int) = some master ∧
          master.NumSubdevices < (st.pci_caddress >>> 8) &&& 0x7)) :
    read_pci st port iolen = 0xffffffff := by
  rcases hbad with h | h | h | ⟨master, hm, hlt⟩
  · simp [read_pci, h]
  · simp [read_pci, ge_iff_le, h]
  · simp [read_pci, h]
  · simp [read_pci, hm, gt_iff_lt, hlt]

/-- C2: when the latch fails the enable check (`latch & 0x80ff0000 !=
0x80000000`), or the decoded device number is at least the installed count,
or the slot is unoccupied, or the function number exceeds the subdevice
count of the primary, every data-port write of width 1, 2 or 4 leaves the
state (in particular all configuration storage) unchanged and every
data-port read returns the all-ones value, which truncated to the access
width is the all-ones value of that width. -/
theorem invalid_access_noop_allones (st : BusState) (port val w : Nat)
    (hw : w = 1 ∨ w = 2 ∨ w = 4)
    (hbad : st.pci_caddress &&& 0x80ff0000 ≠ 0x80000000 ∨
        st.pci_devices_installed ≤ (st.pci_caddress >>> 11) &&& 0x1f ∨
        st.pci_devices (((st.pci_caddress >>> 11) &&& 0x1f : Nat) : Int) = none ∨
        (∃ master, st.pci_devices (((st.pci_caddress >>> 11) &&& 0x1f : Nat) : Int) = some master ∧
          master.NumSubdevices < (st.pci_caddress >>> 8) &&& 0x7)) :
    write_pci st port val w = st ∧ read_pci st port w = 0xffffffff ∧
      read_pci st port w % 2 ^ (8 * w) = 2 ^ (8 * w) - 1 := by
  refine ⟨write_pci_invalid st port val w hbad, read_pci_invalid st port w hbad, ?_⟩
  rw [read_pci_invalid st port w hbad]
  rcases hw with h | h | h <;> subst h <;> decide

/-- Witness for C2 at a concrete input: the fresh state has latch 0 (enable
bit clear), so a width-1 access is dropped and reads as all-ones. -/
theorem invalid_access_noop_allones_witness :
    write_pci initialBusState 0xcfc 0x12 1 = initialBusState ∧
      read_pci initialBusState 0xcfc 1 = 0xffffffff ∧
      read_pci initialBusState 0xcfc 1 % 2 ^ (8 * 1) = 2 ^ (8 * 1) - 1 :=
  invalid_access_noop_allones initialBusState 0xcfc 0x12 1 (Or.inl rfl)
    (Or.inl (by decide))

/-! ## C1 -/

/-- With the enable check passing and a resolved target device, a width-1
data-port write is a single-register write at the decoded base register. -/
theorem write_pci_resolved_1 (st : BusState) (port val : Nat) (master dev : PCI_Device)
    (henb : st.pci_caddress &&& 0x80ff0000 = 0x80000000)
    (hinst : (st.pci_caddress >>> 11) &&& 0x1f < st.pci_devices_installed)
    (hm : st.pci_devices (((st.pci_caddress >>> 11) &&& 0x1f : Nat) : Int) = some master)
    (hf : (st.pci_caddress >>> 8) &&& 0x7 ≤ master.NumSubdevices)
    (hgs : master.GetSubdevice ((st.pci_caddress >>> 8) &&& 0x7) = some dev) :
    write_pci st port val 1 =
      write_pci_register st dev (bit8 ((st.pci_caddress &&& 0xfc) + (port &&& 0x03)))
        (val &&& 0xff) := by
  simp [write_pci, henb, hm, hgs, Nat.not_le.mpr hinst, Nat.not_lt.mpr hf]

/-- Width-2 analogue of `write_pci_resolved_1`. -/
theorem write_pci_resolved_2 (st : BusState) (port val : Nat) (master dev : PCI_Device)
    (henb : st.pci_caddress &&& 0x80ff0000 = 0x80000000)
    (hinst : (st.pci_caddress >>> 11) &&& 0x1f < st.pci_devices_installed)
    (hm : st.pci_devices (((st.pci_caddress >>> 11) &&& 0x1f : Nat) : Int) = some master)
    (hf : (st.pci_caddress >>> 8) &&& 0x7 ≤ master.NumSubdevices)
    (hgs : master.GetSubdevice ((st.pci_caddress >>> 8) &&& 0x7) = some dev) :
    write_pci st port val 2 =
      write_pci_register
        (write_pci_register st dev (bit8 ((st.pci_caddress &&& 0xfc) + (port &&& 0x03)))
          (val &&& 0xff))
        dev (bit8 (bit8 ((st.pci_caddress &&& 0xfc) + (port &&& 0x03)) + 1))
        ((val >>> 8) &&& 0xff) := by
  simp [write_pci, henb, hm, hgs, Nat.not_le.mpr hinst, Nat.not_lt.mpr hf]

/-- Width-4 analogue of `write_pci_resolved_1`. -/
theorem write_pci_resolved_4 (st : BusState) (port val : Nat) (master dev : PCI_Device)
    (henb : st.pci_caddress &&& 0x80ff0000 = 0x80000000)
    (hinst : (st.pci_caddress >>> 11) &&& 0x1f < st.pci_devices_installed)
    (hm : st.pci_devices (((st.pci_caddress >>> 11) &&& 0x1f : Nat) : Int) = some master)
    (hf : (st.pci_caddress >>> 8) &&& 0x7 ≤ master.NumSubdevices)
    (hgs : master.GetSubdevice ((st.pci_caddress >>> 8) &&& 0x7) = some dev) :
    write_pci st port val 4 =
      write_pci_register
        (write_pci_register
          (write_pci_register
            (write_pci_register st dev (bit8 ((st.pci_caddress &&& 0xfc) + (port &&& 0x03)))
              (val &&& 0xff))
            dev (bit8 (bit8 ((st.pci_caddress &&& 0xfc) + (port &&& 0x03)) + 1))
            ((val >>> 8) &&& 0xff))
          dev (bit8 (bit8 ((st.pci_caddress &&& 0xfc) + (port &&& 0x03)) + 2))
          ((val >>> 16) &&& 0xff))
        dev (bit8 (bit8 ((st.pci_caddress &&& 0xfc) + (port &&& 0x03)) + 3))
        ((val >>> 24) &&& 0xff) := by
  simp [write_pci, henb, hm, hgs, Nat.not_le.mpr hinst, Nat.not_lt.mpr hf]

/-- With the enable check passing and a resolved target device, a data-port
read of width 1, 2 or 4 is the little-endian composition of single-register
reads starting at the decoded base register. -/
theorem read_pci_resolved (st : BusState) (port : Nat) (master dev : PCI_Device)
    (henb : st.pci_caddress &&& 0x80ff0000 = 0x80000000)
    (hinst : (st.pci_caddress >>> 11) &&& 0x1f < st.pci_devices_installed)
    (hm : st.pci_devices (((st.pci_caddress >>> 11) &&& 0x1f : Nat) : Int) = some master)
    (hf : (st.pci_caddress >>> 8) &&& 0x7 ≤ master.NumSubdevices)
    (hgs : master.GetSubdevice ((st.pci_caddress >>> 8) &&& 0x7) = some dev) :
    (read_pci st port 1 =
        read_pci_register st dev (bit8 ((st.pci_caddress &&& 0xfc) + (port &&& 0x03)))) ∧
    (read_pci st port 2 =
        read_pci_register st dev (bit8 ((st.pci_caddress &&& 0xfc) + (port &&& 0x03))) |||
          (read_pci_register st dev
            (bit8 (bit8 ((st.pci_caddress &&& 0xfc) + (port &&& 0x03)) + 1)) <<< 8)) ∧
    (read_pci st port 4 =
        read_pci_register st dev (bit8 ((st.pci_caddress &&& 0xfc) + (port &&& 0x03))) |||
          (read_pci_register st dev
            (bit8 (bit8 ((st.pci_caddress &&& 0xfc) + (port &&& 0x03)) + 1)) <<< 8) |||
          (read_pci_register st dev
            (bit8 (bit8 ((st.pci_caddress &&& 0xfc) + (port &&& 0x03)) + 2)) <<< 16) |||
          (read_pci_register st dev
            (bit8 (bit8 ((st.pci_caddress &&& 0xfc) + (port &&& 0x03)) + 3)) <<< 24)) := by
  refine ⟨?_, ?_, ?_⟩ <;>
    simp [read_pci, henb, hm, hgs, Nat.not_le.mpr hinst, Nat.not_lt.mpr hf]

/-- The decoded base register `(latch & 0xfc) + (port & 3)` is below 256,
so the `Bit8u` cast leaves it unchanged. -/
theorem base_register_lt_256 (latch port : Nat) :
    bit8 ((latch &&& 0xfc) + (port &&& 0x03)) = (latch &&& 0xfc) + (port &&& 0x03) := by
  have h1 : latch &&& 0xfc ≤ 0xfc := Nat.and_le_right
  have h2 : port &&& 0x03 ≤ 0x03 := Nat.and_le_right
  unfold bit8
  omega

/-- C1: for every latch passing the enable check, the data port resolves
device `(latch >> 11) & 0x1f`, function `(latch >> 8) & 0x7` and base
register `(latch & 0xfc) + (port & 3)`; a read of width 1, 2 or 4 is
composed little-endian from independent single-byte register reads at the
base and successive 8-bit register indices, and a write of width 1, 2 or 4
decomposes the value the same way, the least-significant byte going to the
base register. -/
theorem dataport_decode_littleendian
    (st : BusState) (port val : Nat) (master dev : PCI_Device)
    (henb : st.pci_caddress &&& 0x80ff0000 = 0x80000000)
    (hinst : (st.pci_caddress >>> 11) &&& 0x1f < st.pci_devices_installed)
    (hm : st.pci_devices (((st.pci_caddress >>> 11) &&& 0x1f : Nat) : Int) = some master)
    (hf : (st.pci_caddress >>> 8) &&& 0x7 ≤ master.NumSubdevices)
    (hgs : master.GetSubdevice ((st.pci_caddress >>> 8) &&& 0x7) = some dev) :
    (read_pci st port 1 =
        read_pci_register st dev ((st.pci_caddress &&& 0xfc) + (port &&& 0x03))) ∧
    (read_pci st port 2 =
        read_pci_register st dev ((st.pci_caddress &&& 0xfc) + (port &&& 0x03)) |||
          (read_pci_register st dev
            (bit8 ((st.pci_caddress &&& 0xfc) + (port &&& 0x03) + 1)) <<< 8)) ∧
    (read_pci st port 4 =
        read_pci_register st dev ((st.pci_caddress &&& 0xfc) + (port &&& 0x03)) |||
          (read_pci_register st dev
            (bit8 ((st.pci_caddress &&& 0xfc) + (port &&& 0x03) + 1)) <<< 8) |||
          (read_pci_register st dev
            (bit8 ((st.pci_caddress &&& 0xfc) + (port &&& 0x03) + 2)) <<< 16) |||
          (read_pci_register st dev
            (bit8 ((st.pci_caddress &&& 0xfc) + (port &&& 0x03) + 3)) <<< 24)) ∧
    (write_pci st port val 1 =
        write_pci_register st dev ((st.pci_caddress &&& 0xfc) + (port &&& 0x03))
          (val &&& 0xff)) ∧
    (write_pci st port val 2 =
        write_pci_register
          (write_pci_register st dev ((st.pci_caddress &&& 0xfc) + (port &&& 0x03))
            (val &&& 0xff))
          dev (bit8 ((st.pci_caddress &&& 0xfc) + (port &&& 0x03) + 1))
          ((val >>> 8) &&& 0xff)) ∧
    (write_pci st port val 4 =
        write_pci_register
          (write_pci_register
            (write_pci_register
              (write_pci_register st dev ((st.pci_caddress &&& 0xfc) + (port &&& 0x03))
                (val &&& 0xff))
              dev (bit8 ((st.pci_caddress &&& 0xfc) + (port &&& 0x03) + 1))
              ((val >>> 8) &&& 0xff))
            dev (bit8 ((st.pci_caddress &&& 0xfc) + (port &&& 0x03) + 2))
            ((val >>> 16) &&& 0xff))
          dev (bit8 ((st.pci_caddress &&& 0xfc) + (port &&& 0x03) + 3))
          ((val >>> 24) &&& 0xff)) := by
  have hb := base_register_lt_256 st.pci_caddress port
  have hr := read_pci_resolved st port master dev henb hinst hm hf hgs
  refine ⟨?_, ?_, ?_, ?_, ?_, ?_⟩
  · rw [hr.1, hb]
  · rw [hr.2.1, hb]
  · rw [hr.2.2, hb]
  · rw [write_pci_resolved_1 st port val master dev henb hinst hm hf hgs, hb]
  · rw [write_pci_resolved_2 st port val master dev henb hinst hm hf hgs, hb]
  · rw [write_pci_resolved_4 st port val master dev henb hinst hm hf hgs, hb]

/-- Witness for C1 at a concrete input: device 0, function 0, base register
`0x10` of the registered pass-through device (latch `0x80000010`, port
`0xcfc`). -/
theorem dataport_decode_littleendian_witness :
    (read_pci oneDevState 0xcfc 1 = read_pci_register oneDevState passDevice00 0x10) ∧
    (write_pci oneDevState 0xcfc 0x11223344 4 =
        write_pci_register
          (write_pci_register
            (write_pci_register
              (write_pci_register oneDevState passDevice00 0x10 0x44)
              passDevice00 0x11 0x33)
            passDevice00 0x12 0x22)
          passDevice00 0x13 0x11) :=
  ⟨(dataport_decode_littleendian oneDevState 0xcfc 0x11223344 passDevice00 passDevice00
      (by decide) (by decide) rfl (by decide) rfl).1,
   (dataport_decode_littleendian oneDevState 0xcfc 0x11223344 passDevice00 passDevice00
      (by decide) (by decide) rfl (by decide) rfl).2.2.2.2.2⟩

/-! ## C5 -/

/-- The width dispatch of `read_pci` once a target device is resolved
(mirrors the `switch (iolen)` of the source). -/
def readDispatch (st : BusState) (dev : PCI_Device) (regnum iolen : Nat) : Nat :=
  match iolen with
  | 1 => read_pci_register st dev regnum
  | 2 => read_pci_register st dev regnum |||
      (read_pci_register st dev (bit8 (regnum + 1)) <<< 8)
  | 4 => read_pci_register st dev regnum |||
      (read_pci_register st dev (bit8 (regnum + 1)) <<< 8) |||
      (read_pci_register st dev (bit8 (regnum + 2)) <<< 16) |||
      (read_pci_register st dev (bit8 (regnum + 3)) <<< 24)
  | _ => 0xffffffff

/-- The width dispatch of `write_pci` once a target device is resolved
(mirrors the `switch (iolen)` of the source). -/
def writeDispatch (st : BusState) (dev : PCI_Device) (regnum val iolen : Nat) : BusState :=
  match iolen with
  | 1 => write_pci_register st dev regnum (val &&& 0xff)
  | 2 => write_pci_register (write_pci_register st dev regnum (val &&& 0xff))
      dev (bit8 (regnum + 1)) ((val >>> 8) &&& 0xff)
  | 4 => write_pci_register
      (write_pci_register
        (write_pci_register
          (write_pci_register st dev regnum (val &&& 0xff))
          dev (bit8 (regnum + 1)) ((val >>> 8) &&& 0xff))
        dev (bit8 (regnum + 2)) ((val >>> 16) &&& 0xff))
      dev (bit8 (regnum + 3)) ((val >>> 24) &&& 0xff)
  | _ => st

/-- A data-port read with a resolved target is the width dispatch applied
to that target, for every access width. -/
theorem read_pci_eq_dispatch (st : BusState) (port iolen : Nat) (master dev : PCI_Device)
    (henb : st.pci_caddress &&& 0x80ff0000 = 0x80000000)
    (hinst : (st.pci_caddress >>> 11) &&& 0x1f < st.pci_devices_installed)
    (hm : st.pci_devices (((st.pci_caddress >>> 11) &&& 0x1f : Nat) : Int) = some master)
    (hf : (st.pci_caddress >>> 8) &&& 0x7 ≤ master.NumSubdevices)
    (hgs : master.GetSubdevice ((st.pci_caddress >>> 8) &&& 0x7) = some dev) :
    read_pci st port iolen =
      readDispatch st dev (bit8 ((st.pci_caddress &&& 0xfc) + (port &&& 0x03))) iolen := by
  have h1 := Nat.not_le.mpr hinst
  have h2 := Nat.not_lt.mpr hf
  rcases iolen with _ | _ | _ | _ | _ | n <;>
    simp [read_pci, readDispatch, henb, hm, hgs, h1, h2]

/-- A data-port write with a resolved target is the width dispatch applied
to that target, for every access width. -/
theorem write_pci_eq_dispatch (st : BusState) (port val iolen : Nat) (master dev : PCI_Device)
    (henb : st.pci_caddress &&& 0x80ff0000 = 0x80000000)
    (hinst : (st.pci_caddress >>> 11) &&& 0x1f < st.pci_devices_installed)
    (hm : st.pci_devices (((st.pci_caddress >>> 11) &&& 0x1f : Nat) : Int) = some master)
    (hf : (st.pci_caddress >>> 8) &&& 0x7 ≤ master.NumSubdevices)
    (hgs : master.GetSubdevice ((st.pci_caddress >>> 8) &&& 0x7) = some dev) :
    write_pci st port val iolen =
      writeDispatch st dev (bit8 ((st.pci_caddress &&& 0xfc) + (port &&& 0x03))) val iolen := by
  have h1 := Nat.not_le.mpr hinst
  have h2 := Nat.not_lt.mpr hf
  rcases iolen with _ | _ | _ | _ | _ | n <;>
    simp [write_pci, writeDispatch, henb, hm, hgs, h1, h2]

/-- C5: with the enable check passing and an occupied slot resolved, the
access is served exactly when the decoded function number is less than or
equal to the subdevice count of the primary: function 0 resolves to the
primary itself, function `f` with `1 <= f <= count` resolves to secondary
index `f-1`, and a function number above the count makes writes a no-op
and reads all-ones. The subdevice table is assumed filled contiguously
(the registration invariant of the source). -/
theorem function_number_boundary
    (st : BusState) (port val iolen : Nat) (master : PCI_Device)
    (henb : st.pci_caddress &&& 0x80ff0000 = 0x80000000)
    (hinst : (st.pci_caddress >>> 11) &&& 0x1f < st.pci_devices_installed)
    (hm : st.pci_devices (((st.pci_caddress >>> 11) &&& 0x1f : Nat) : Int) = some master)
    (hcontig : ∀ i, i < master.NumSubdevices → (master.subdevices i).isSome) :
    (master.GetSubdevice 0 = some master) ∧
    (∀ f : Nat, 1 ≤ f → f ≤ master.NumSubdevices → f < 8 →
        master.GetSubdevice f = master.subdevices (f - 1)) ∧
    ((st.pci_caddress >>> 8) &&& 0x7 ≤ master.NumSubdevices →
      ∃ dev, master.GetSubdevice ((st.pci_caddress >>> 8) &&& 0x7) = some dev ∧
        ((st.pci_caddress >>> 8) &&& 0x7 = 0 → dev = master) ∧
        (1 ≤ (st.pci_caddress >>> 8) &&& 0x7 →
          master.subdevices (((st.pci_caddress >>> 8) &&& 0x7) - 1) = some dev) ∧
        read_pci st port iolen =
          readDispatch st dev (bit8 ((st.pci_caddress &&& 0xfc) + (port &&& 0x03))) iolen ∧
        write_pci st port val iolen =
          writeDispatch st dev (bit8 ((st.pci_caddress &&& 0xfc) + (port &&& 0x03))) val iolen) ∧
    (master.NumSubdevices < (st.pci_caddress >>> 8) &&& 0x7 →
      write_pci st port val iolen = st ∧ read_pci st port iolen = 0xffffffff) := by
  have hsub0 : master.GetSubdevice 0 = some master := by
    unfold PCI_Device.GetSubdevice
    rw [if_neg (by simp [PCI_MAX_PCIFUNCTIONS]), if_neg (by omega)]
  have hsubf : ∀ f : Nat, 1 ≤ f → f ≤ master.NumSubdevices → f < 8 →
      master.GetSubdevice f = master.subdevices (f - 1) := by
    intro f h1 h2 h8
    unfold PCI_Device.GetSubdevice
    rw [if_neg (by simp [PCI_MAX_PCIFUNCTIONS]; omega), if_pos (by omega), if_pos h2]
  refine ⟨hsub0, hsubf, ?_, ?_⟩
  · intro hle
    have hfle : (st.pci_caddress >>> 8) &&& 0x7 ≤ 7 := Nat.and_le_right
    by_cases hf0 : (st.pci_caddress >>> 8) &&& 0x7 = 0
    · refine ⟨master, by rw [hf0]; exact hsub0, fun _ => rfl, fun h => absurd h (by omega), ?_, ?_⟩
      · exact read_pci_eq_dispatch st port iolen master master henb hinst hm hle
          (by rw [hf0]; exact hsub0)
      · exact write_pci_eq_dispatch st port val iolen master master henb hinst hm hle
          (by rw [hf0]; exact hsub0)
    · have hlt : ((st.pci_caddress >>> 8) &&& 0x7) - 1 < master.NumSubdevices := by omega
      obtain ⟨dev, hdev⟩ := Option.isSome_iff_exists.mp (hcontig _ hlt)
      have hgs : master.GetSubdevice ((st.pci_caddress >>> 8) &&& 0x7) = some dev := by
        rw [hsubf _ (by omega) hle (by omega)]
        exact hdev
      refine ⟨dev, hgs, fun h => absurd h hf0, fun _ => hdev, ?_, ?_⟩
      · exact read_pci_eq_dispatch st port iolen master dev henb hinst hm hle hgs
      · exact write_pci_eq_dispatch st port val iolen master dev henb hinst hm hle hgs
  · intro hgt
    exact ⟨write_pci_invalid st port val iolen
        (Or.inr (Or.inr (Or.inr ⟨master, hm, hgt⟩))),
      read_pci_invalid st port iolen
        (Or.inr (Or.inr (Or.inr ⟨master, hm, hgt⟩)))⟩

/-- A pass-through device registered as secondary function 1 of slot 0. -/
def subDevice01 : PCI_Device := PCI_Device.mk passOps 0 1 0 (fun _ => none)

/-- A primary device at slot 0 owning one secondary function. -/
def multiFnDevice : PCI_Device :=
  PCI_Device.mk passOps 0 0 1 (fun i => if i = 0 then some subDevice01 else none)

/-- A concrete state: the multi-function device at slot 0, latch
`0x80000110` (enabled access to device 0, function 1, register `0x10`). -/
def multiFnState : BusState :=
  { pci_caddress := 0x80000110
    pci_devices_installed := 1
    pci_cfg_data := fun _ _ _ => 0
    pci_devices := fun i => if i = 0 then some multiFnDevice else none
    rqueued_devices := []
    pci_initialized := true
    ports_installed := true
    callback_installed := true }

/-- Witness for C5 at a concrete input: function number 1 equals the
subdevice count (the boundary case), so the access is served, resolving to
secondary index 0. -/
theorem function_number_boundary_witness :
    ∃ dev, multiFnDevice.GetSubdevice ((multiFnState.pci_caddress >>> 8) &&& 0x7) = some dev ∧
      ((multiFnState.pci_caddress >>> 8) &&& 0x7 = 0 → dev = multiFnDevice) ∧
      (1 ≤ (multiFnState.pci_caddress >>> 8) &&& 0x7 →
        multiFnDevice.subdevices (((multiFnState.pci_caddress >>> 8) &&& 0x7) - 1) = some dev) ∧
      read_pci multiFnState 0xcfc 1 =
        readDispatch multiFnState dev
          (bit8 ((multiFnState.pci_caddress &&& 0xfc) + (0xcfc &&& 0x03))) 1 ∧
      write_pci multiFnState 0xcfc 0x55 1 =
        writeDispatch multiFnState dev
          (bit8 ((multiFnState.pci_caddress &&& 0xfc) + (0xcfc &&& 0x03))) 0x55 1 :=
  (function_number_boundary multiFnState 0xcfc 0x55 1 multiFnDevice (by decide) (by decide)
    rfl
    (fun i hi => by
      have h1 : i = 0 := by
        have h2 : multiFnDevice.NumSubdevices = 1 := rfl
        omega
      subst h1
      rfl)).2.2.1 (by decide)

/-! ## C10 -/

/-- A single-register write never changes any configuration byte at an
offset different from its register argument. -/
theorem write_pci_register_cfg_frame (st : BusState) (dev : PCI_Device)
    (regnum value : Nat) (s f : Int) (r : Nat) (hne : r ≠ regnum) :
    (write_pci_register st dev regnum value).pci_cfg_data s f r = st.pci_cfg_data s f r := by
  simp only [write_pci_register, BusState.storeCfg]
  split_ifs <;> simp [hne]

/-- The width dispatch of a write never changes any configuration byte at
an offset outside the wrapped per-byte register indices of the access. -/
theorem writeDispatch_cfg_frame (st : BusState) (dev : PCI_Device)
    (regnum val iolen : Nat) (s f : Int) (r : Nat)
    (hreg : regnum < 256) (hne : ∀ i, i < iolen → r ≠ bit8 (regnum + i)) :
    (writeDispatch st dev regnum val iolen).pci_cfg_data s f r = st.pci_cfg_data s f r := by
  have h8 : bit8 regnum = regnum := Nat.mod_eq_of_lt hreg
  rcases iolen with _ | _ | _ | _ | _ | n
  · rfl
  · exact write_pci_register_cfg_frame st dev regnum (val &&& 0xff) s f r
      (by have := hne 0 (by omega); rwa [show regnum + 0 = regnum from rfl, h8] at this)
  · show (write_pci_register (write_pci_register st dev regnum (val &&& 0xff))
        dev (bit8 (regnum + 1)) ((val >>> 8) &&& 0xff)).pci_cfg_data s f r =
      st.pci_cfg_data s f r
    rw [write_pci_register_cfg_frame _ _ _ _ s f r (hne 1 (by omega)),
      write_pci_register_cfg_frame _ _ _ _ s f r
        (by have := hne 0 (by omega); rwa [show regnum + 0 = regnum from rfl, h8] at this)]
  · rfl
  · show (write_pci_register
        (write_pci_register
          (write_pci_register
            (write_pci_register st dev regnum (val &&& 0xff))
            dev (bit8 (regnum + 1)) ((val >>> 8) &&& 0xff))
          dev (bit8 (regnum + 2)) ((val >>> 16) &&& 0xff))
        dev (bit8 (regnum + 3)) ((val >>> 24) &&& 0xff)).pci_cfg_data s f r =
      st.pci_cfg_data s f r
    rw [write_pci_register_cfg_frame _ _ _ _ s f r (hne 3 (by omega)),
      write_pci_register_cfg_frame _ _ _ _ s f r (hne 2 (by omega)),
      write_pci_register_cfg_frame _ _ _ _ s f r (hne 1 (by omega)),
      write_pci_register_cfg_frame _ _ _ _ s f r
        (by have := hne 0 (by omega); rwa [show regnum + 0 = regnum from rfl, h8] at this)]
  · rfl

/-- A data-port write either leaves the state unchanged or is the width
dispatch applied to some resolved device at the decoded base register. -/
theorem write_pci_cases (st : BusState) (port val iolen : Nat) :
    write_pci st port val iolen = st ∨
    ∃ dev, write_pci st port val iolen =
      writeDispatch st dev (bit8 ((st.pci_caddress &&& 0xfc) + (port &&& 0x03))) val iolen := by
  by_cases henb : st.pci_caddress &&& 0x80ff0000 = 0x80000000
  · by_cases hge : st.pci_devices_installed ≤ (st.pci_caddress >>> 11) &&& 0x1f
    · exact Or.inl (write_pci_invalid st port val iolen (Or.inr (Or.inl hge)))
    · cases hm : st.pci_devices (((st.pci_caddress >>> 11) &&& 0x1f : Nat) : Int) with
      | none => exact Or.inl (write_pci_invalid st port val iolen (Or.inr (Or.inr (Or.inl hm))))
      | some master =>
        by_cases hfct : master.NumSubdevices < (st.pci_caddress >>> 8) &&& 0x7
        · exact Or.inl (write_pci_invalid st port val iolen
            (Or.inr (Or.inr (Or.inr ⟨master, hm, hfct⟩))))
        · cases hgs : master.GetSubdevice ((st.pci_caddress >>> 8) &&& 0x7) with
          | none =>
              left
              simp [write_pci, henb, hm, hgs, hge, hfct]
          | some dev =>
              exact Or.inr ⟨dev, write_pci_eq_dispatch st port val iolen master dev henb
                (Nat.not_le.mp hge) hm (Nat.not_lt.mp hfct) hgs⟩
  · exact Or.inl (write_pci_invalid st port val iolen (Or.inl henb))

/-- C10: each per-byte register index of a width-1, 2 or 4 access equals
`(base + i) % 256` (the `Bit8u` register parameter wraps), hence is below
256; a data-port write changes no configuration byte outside these wrapped
offsets, and (for every width) no byte at an offset of 256 or more. -/
theorem register_offsets_wrap_in_range (st : BusState) (port val w : Nat)
    (_hw : w = 1 ∨ w = 2 ∨ w = 4) :
    (∀ i, i < w →
        bit8 (bit8 ((st.pci_caddress &&& 0xfc) + (port &&& 0x03)) + i) =
          ((st.pci_caddress &&& 0xfc) + (port &&& 0x03) + i) % 256 ∧
        ((st.pci_caddress &&& 0xfc) + (port &&& 0x03) + i) % 256 < 256) ∧
    (∀ (s f : Int) (r : Nat),
      (∀ i, i < w → r ≠ ((st.pci_caddress &&& 0xfc) + (port &&& 0x03) + i) % 256) →
      (write_pci st port val w).pci_cfg_data s f r = st.pci_cfg_data s f r) ∧
    (∀ (iolen : Nat) (s f : Int) (r : Nat), 256 ≤ r →
      (write_pci st port val iolen).pci_cfg_data s f r = st.pci_cfg_data s f r) := by
  have hbase : ∀ i : Nat,
      bit8 (bit8 ((st.pci_caddress &&& 0xfc) + (port &&& 0x03)) + i) =
        ((st.pci_caddress &&& 0xfc) + (port &&& 0x03) + i) % 256 := by
    intro i
    unfold bit8
    omega
  have hlt : bit8 ((st.pci_caddress &&& 0xfc) + (port &&& 0x03)) < 256 := by
    unfold bit8
    omega
  refine ⟨fun i _ => ⟨hbase i, by omega⟩, ?_, ?_⟩
  · intro s f r hne
    rcases write_pci_cases st port val w with h | ⟨dev, h⟩
    · rw [h]
    · rw [h]
      exact writeDispatch_cfg_frame st dev _ val w s f r hlt
        (fun i hi => by rw [hbase i]; exact hne i hi)
  · intro iolen s f r hr
    rcases write_pci_cases st port val iolen with h | ⟨dev, h⟩
    · rw [h]
    · rw [h]
      exact writeDispatch_cfg_frame st dev _ val iolen s f r hlt
        (fun i hi => by rw [hbase i]; omega)

/-- A concrete state for the wrap-around example: latch `0x800000fc`
(enabled, device 0, function 0, register base `0xfc`). -/
def wrapState : BusState :=
  { pci_caddress := 0x800000fc
    pci_devices_installed := 1
    pci_cfg_data := fun _ _ _ => 0
    pci_devices := fun i => if i = 0 then some passDevice00 else none
    rqueued_devices := []
    pci_initialized := true
    ports_installed := true
    callback_installed := true }

/-- Witness for C10 at a concrete input: a 4-byte access at port offset 3
has base register `0xff`; its second byte index wraps to `0x00`, and a
4-byte write leaves offset `0x03` (outside the wrapped set
`{0xff, 0x00, 0x01, 0x02}`) unchanged. -/
theorem register_offsets_wrap_in_range_witness :
    (bit8 (bit8 ((wrapState.pci_caddress &&& 0xfc) + (0xcff &&& 0x03)) + 1) =
        ((wrapState.pci_caddress &&& 0xfc) + (0xcff &&& 0x03) + 1) % 256) ∧
    ((wrapState.pci_caddress &&& 0xfc) + (0xcff &&& 0x03) + 1) % 256 = 0x00 ∧
    (write_pci wrapState 0xcff 0x11223344 4).pci_cfg_data 0 0 0x03 =
      wrapState.pci_cfg_data 0 0 0x03 :=
  ⟨((register_offsets_wrap_in_range wrapState 0xcff 0x11223344 4
      (Or.inr (Or.inr rfl))).1 1 (by omega)).1,
   by decide,
   (register_offsets_wrap_in_range wrapState 0xcff 0x11223344 4
      (Or.inr (Or.inr rfl))).2.1 0 0 0x03 (by decide)⟩

/-! ## C6 -/

/-- Registering into an empty slot of an initialized controller: the device
becomes the primary of the resolved slot with function 0, its bank is
populated by its hook, and the installed count increments. -/
theorem register_empty_slot (st : BusState) (device : PCI_Device) (slot slotR : Int)
    (h1 : ¬(0 ≤ slot ∧ (PCI_MAX_PCIDEVICES : Int) ≤ slot))
    (h2 : ¬(slot < 0 ∧ PCI_MAX_PCIDEVICES ≤ st.pci_devices_installed))
    (hinit : st.pci_initialized = true)
    (hslotR : slotR = if slot < 0 then (st.pci_devices_installed : Int) else slot)
    (hempty : st.pci_devices slotR = none)
    (hok : (device.ops.initialize_registers (fun r => st.pci_cfg_data slotR 0 r)).2 = true) :
    RegisterPCIDevice st (some device) slot =
      (.ok slotR,
       { st with
          pci_cfg_data := fun a b c =>
            if a = slotR ∧ b = 0 then
              bit8 ((device.ops.initialize_registers (fun r => st.pci_cfg_data slotR 0 r)).1 c)
            else st.pci_cfg_data a b c
          pci_devices := fun i =>
            if i = slotR then some (device.SetPCIId slotR 0) else st.pci_devices i
          pci_devices_installed := st.pci_devices_installed + 1 }) := by
  subst hslotR
  simp [RegisterPCIDevice, if_neg h1, if_neg h2, hinit, hempty, hok]

/-- Registering into an occupied slot of an initialized controller whose
primary has room: the device is appended as the next secondary function
(index `num_subdevices`, function number `num_subdevices + 1`), its bank
is populated, and the installed count is unchanged. -/
theorem register_occupied_slot (st : BusState) (device primary : PCI_Device) (slot slotR : Int)
    (h1 : ¬(0 ≤ slot ∧ (PCI_MAX_PCIDEVICES : Int) ≤ slot))
    (h2 : ¬(slot < 0 ∧ PCI_MAX_PCIDEVICES ≤ st.pci_devices_installed))
    (hinit : st.pci_initialized = true)
    (hslotR : slotR = if slot < 0 then (st.pci_devices_installed : Int) else slot)
    (hprim : st.pci_devices slotR = some primary)
    (hroom : primary.num_subdevices < PCI_MAX_PCIFUNCTIONS - 1)
    (hfree : primary.subdevices primary.num_subdevices = none)
    (hok : (device.ops.initialize_registers
        (fun r => st.pci_cfg_data slotR ((primary.num_subdevices : Int) + 1) r)).2 = true) :
    RegisterPCIDevice st (some device) slot =
      (.ok slotR,
       { st with
          pci_cfg_data := fun a b c =>
            if a = slotR ∧ b = (primary.num_subdevices : Int) + 1 then
              bit8 ((device.ops.initialize_registers
                (fun r => st.pci_cfg_data slotR ((primary.num_subdevices : Int) + 1) r)).1 c)
            else st.pci_cfg_data a b c
          pci_devices := fun i =>
            if i = slotR then
              some (PCI_Device.mk primary.ops primary.pci_id primary.pci_subfunction
                (primary.num_subdevices + 1)
                (fun i2 => if i2 = primary.num_subdevices then
                    some (device.SetPCIId slotR ((primary.num_subdevices : Int) + 1))
                  else primary.subdevices i2))
            else st.pci_devices i }) := by
  subst hslotR
  have hneg : ¬((primary.num_subdevices : Int) + 1 < 0) := by omega
  simp [RegisterPCIDevice, if_neg h1, if_neg h2, hinit, hprim, hok, hneg,
    PCI_Device.GetNextSubdeviceNumber, hroom, PCI_Device.AddSubdevice, hfree]

/-- Registering into an occupied slot whose primary already holds 7
secondary functions aborts via `E_Exit` with the state unchanged. -/
theorem register_full_slot (st : BusState) (device primary : PCI_Device) (slot slotR : Int)
    (h1 : ¬(0 ≤ slot ∧ (PCI_MAX_PCIDEVICES : Int) ≤ slot))
    (h2 : ¬(slot < 0 ∧ PCI_MAX_PCIDEVICES ≤ st.pci_devices_installed))
    (hinit : st.pci_initialized = true)
    (hslotR : slotR = if slot < 0 then (st.pci_devices_installed : Int) else slot)
    (hprim : st.pci_devices slotR = some primary)
    (hfull : ¬primary.num_subdevices < PCI_MAX_PCIFUNCTIONS - 1) :
    RegisterPCIDevice st (some device) slot = (.fatal, st) := by
  subst hslotR
  simp [RegisterPCIDevice, if_neg h1, if_neg h2, hinit, hprim,
    PCI_Device.GetNextSubdeviceNumber, hfull]

/-- C6: step behavior of successive registrations to one slot of an
initialized controller. Into an empty slot the device becomes the primary
with identity `(slot, 0)` and the installed count increments; into an
occupied slot with `k < 7` secondary functions the device is appended at
subdevice index `k` (addressable as function `k + 1`, identity function
number `k + 1`), existing subdevice entries and the installed count are
unchanged; with 7 secondary functions present the registration aborts and
the state is returned exactly unchanged. Iterating the middle case from an
empty slot yields function indices 1, 2, ..., 7 in order. -/
theorem same_slot_registration_steps
    (st : BusState) (device : PCI_Device) (slot slotR : Int)
    (h1 : ¬(0 ≤ slot ∧ (PCI_MAX_PCIDEVICES : Int) ≤ slot))
    (h2 : ¬(slot < 0 ∧ PCI_MAX_PCIDEVICES ≤ st.pci_devices_installed))
    (hinit : st.pci_initialized = true)
    (hslotR : slotR = if slot < 0 then (st.pci_devices_installed : Int) else slot) :
    (st.pci_devices slotR = none →
      (device.ops.initialize_registers (fun r => st.pci_cfg_data slotR 0 r)).2 = true →
      (RegisterPCIDevice st (some device) slot).1 = .ok slotR ∧
      (RegisterPCIDevice st (some device) slot).2.pci_devices slotR =
        some (device.SetPCIId slotR 0) ∧
      (device.SetPCIId slotR 0).PCIId = slotR ∧
      (device.SetPCIId slotR 0).PCISubfunction = 0 ∧
      (RegisterPCIDevice st (some device) slot).2.pci_devices_installed =
        st.pci_devices_installed + 1) ∧
    (∀ primary, st.pci_devices slotR = some primary →
      primary.num_subdevices < PCI_MAX_PCIFUNCTIONS - 1 →
      primary.subdevices primary.num_subdevices = none →
      (device.ops.initialize_registers
        (fun r => st.pci_cfg_data slotR ((primary.num_subdevices : Int) + 1) r)).2 = true →
      (RegisterPCIDevice st (some device) slot).1 = .ok slotR ∧
      (RegisterPCIDevice st (some device) slot).2.pci_devices_installed =
        st.pci_devices_installed ∧
      ∃ p2, (RegisterPCIDevice st (some device) slot).2.pci_devices slotR = some p2 ∧
        p2.NumSubdevices = primary.NumSubdevices + 1 ∧
        p2.GetSubdevice (primary.NumSubdevices + 1) =
          some (device.SetPCIId slotR ((primary.num_subdevices : Int) + 1)) ∧
        (∀ j, j ≠ primary.num_subdevices → p2.subdevices j = primary.subdevices j)) ∧
    (∀ primary, st.pci_devices slotR = some primary →
      ¬primary.num_subdevices < PCI_MAX_PCIFUNCTIONS - 1 →
      RegisterPCIDevice st (some device) slot = (.fatal, st)) := by
  refine ⟨?_, ?_, ?_⟩
  · intro hempty hok
    rw [register_empty_slot st device slot slotR h1 h2 hinit hslotR hempty hok]
    have hrange : 0 ≤ slotR ∧ slotR < (PCI_MAX_PCIDEVICES : Int) := by
      simp [PCI_MAX_PCIDEVICES] at h1 h2 ⊢
      rcases lt_or_le slot 0 with hc | hc
      · rw [hslotR, if_pos hc]
        constructor
        · positivity
        · exact_mod_cast h2 hc
      · rw [hslotR, if_neg (by omega)]
        exact ⟨hc, h1 hc⟩
    refine ⟨rfl, by simp, ?_, ?_, rfl⟩
    · simp [PCI_Device.SetPCIId, hrange, PCI_Device.PCIId, PCI_Device.pci_id]
    · simp [PCI_Device.SetPCIId, hrange, PCI_Device.PCISubfunction,
        PCI_Device.pci_subfunction, PCI_MAX_PCIFUNCTIONS]
  · intro primary hprim hroom hfree hok
    rw [register_occupied_slot st device primary slot slotR h1 h2 hinit hslotR hprim
      hroom hfree hok]
    have hroom7 : primary.num_subdevices < 7 := by
      simpa [PCI_MAX_PCIFUNCTIONS] using hroom
    refine ⟨rfl, rfl,
      PCI_Device.mk primary.ops primary.pci_id primary.pci_subfunction
        (primary.num_subdevices + 1)
        (fun i2 => if i2 = primary.num_subdevices then
            some (device.SetPCIId slotR ((primary.num_subdevices : Int) + 1))
          else primary.subdevices i2), by simp, rfl, ?_, ?_⟩
    · unfold PCI_Device.GetSubdevice
      rw [if_neg (by
          simp only [PCI_MAX_PCIFUNCTIONS, PCI_Device.NumSubdevices]
          omega),
        if_pos (by omega),
        if_pos (by
          simp only [PCI_Device.NumSubdevices, PCI_Device.num_subdevices]
          omega)]
      simp [PCI_Device.subdevices, PCI_Device.NumSubdevices, PCI_Device.num_subdevices]
    · intro j hj
      simp [PCI_Device.subdevices, hj]
  · intro primary hprim hfull
    exact register_full_slot st device primary slot slotR h1 h2 hinit hslotR hprim hfull

/-- Witness for C6 at a concrete input: registering a further device to the
occupied slot 0 (primary holding one secondary) appends it as function 2. -/
theorem same_slot_registration_steps_witness :
    (RegisterPCIDevice multiFnState (some passDevice) 0).1 = .ok 0 ∧
    (RegisterPCIDevice multiFnState (some passDevice) 0).2.pci_devices_installed =
      multiFnState.pci_devices_installed ∧
    ∃ p2, (RegisterPCIDevice multiFnState (some passDevice) 0).2.pci_devices 0 = some p2 ∧
      p2.NumSubdevices = multiFnDevice.NumSubdevices + 1 ∧
      p2.GetSubdevice (multiFnDevice.NumSubdevices + 1) =
        some (passDevice.SetPCIId 0 ((multiFnDevice.num_subdevices : Int) + 1)) ∧
      (∀ j, j ≠ multiFnDevice.num_subdevices →
        p2.subdevices j = multiFnDevice.subdevices j) :=
  (same_slot_registration_steps multiFnState passDevice 0 0 (by decide) (by decide) rfl
    (by decide)).2.1 multiFnDevice rfl (by decide) rfl rfl

/-! ## C7 -/

/-- When the hook fails on the bank of an empty slot, registration returns
the error value and only the target bank was written (through the pointer
the hook received). -/
theorem register_empty_slot_fail (st : BusState) (device : PCI_Device) (slot slotR : Int)
    (h1 : ¬(0 ≤ slot ∧ (PCI_MAX_PCIDEVICES : Int) ≤ slot))
    (h2 : ¬(slot < 0 ∧ PCI_MAX_PCIDEVICES ≤ st.pci_devices_installed))
    (hinit : st.pci_initialized = true)
    (hslotR : slotR = if slot < 0 then (st.pci_devices_installed : Int) else slot)
    (hempty : st.pci_devices slotR = none)
    (hfail : (device.ops.initialize_registers (fun r => st.pci_cfg_data slotR 0 r)).2 = false) :
    RegisterPCIDevice st (some device) slot =
      (.err,
       { st with
          pci_cfg_data := fun a b c =>
            if a = slotR ∧ b = 0 then
              bit8 ((device.ops.initialize_registers (fun r => st.pci_cfg_data slotR 0 r)).1 c)
            else st.pci_cfg_data a b c }) := by
  subst hslotR
  simp [RegisterPCIDevice, if_neg h1, if_neg h2, hinit, hempty, hfail]

/-- When the hook fails on the bank of the next secondary function of an
occupied slot, registration returns the error value and only that bank was
written. -/
theorem register_occupied_slot_fail (st : BusState) (device primary : PCI_Device)
    (slot slotR : Int)
    (h1 : ¬(0 ≤ slot ∧ (PCI_MAX_PCIDEVICES : Int) ≤ slot))
    (h2 : ¬(slot < 0 ∧ PCI_MAX_PCIDEVICES ≤ st.pci_devices_installed))
    (hinit : st.pci_initialized = true)
    (hslotR : slotR = if slot < 0 then (st.pci_devices_installed : Int) else slot)
    (hprim : st.pci_devices slotR = some primary)
    (hroom : primary.num_subdevices < PCI_MAX_PCIFUNCTIONS - 1)
    (hfail : (device.ops.initialize_registers
        (fun r => st.pci_cfg_data slotR ((primary.num_subdevices : Int) + 1) r)).2 = false) :
    RegisterPCIDevice st (some device) slot =
      (.err,
       { st with
          pci_cfg_data := fun a b c =>
            if a = slotR ∧ b = (primary.num_subdevices : Int) + 1 then
              bit8 ((device.ops.initialize_registers
                (fun r => st.pci_cfg_data slotR ((primary.num_subdevices : Int) + 1) r)).1 c)
            else st.pci_cfg_data a b c }) := by
  subst hslotR
  have hneg : ¬((primary.num_subdevices : Int) + 1 < 0) := by omega
  simp [RegisterPCIDevice, if_neg h1, if_neg h2, hinit, hprim, hfail, hneg,
    PCI_Device.GetNextSubdeviceNumber, hroom]

/-- Once the slot checks pass, registering on a possibly-uninitialized
controller equals registering on the lazily initialized one. -/
theorem register_lazy_init (st : BusState) (device : PCI_Device) (slot : Int)
    (h1 : ¬(0 ≤ slot ∧ (PCI_MAX_PCIDEVICES : Int) ≤ slot))
    (h2 : ¬(slot < 0 ∧ PCI_MAX_PCIDEVICES ≤ st.pci_devices_installed)) :
    RegisterPCIDevice st (some device) slot =
      RegisterPCIDevice (if st.pci_initialized then st else InitializePCI st)
        (some device) slot := by
  cases hini : st.pci_initialized with
  | true => rw [if_pos rfl]
  | false =>
      rw [if_neg Bool.false_ne_true]
      simp [RegisterPCIDevice, if_neg h1, if_neg h2, hini, InitializePCI]

/-- C7: if the `InitializeRegisters` hook of the device fails, registration
returns the error value and the slot table, installed count, latch and
pending queue are exactly as before the attempt (the device is entered
nowhere); if the hook succeeds, the call returns the resolved slot number
and the device is entered as the primary of an empty slot (installed count
incremented) or appended to the subdevice list of the primary already
occupying the slot (installed count unchanged). -/
theorem registration_hook_gate
    (st : BusState) (device : PCI_Device) (slot slotR : Int)
    (h1 : ¬(0 ≤ slot ∧ (PCI_MAX_PCIDEVICES : Int) ≤ slot))
    (h2 : ¬(slot < 0 ∧ PCI_MAX_PCIDEVICES ≤ st.pci_devices_installed))
    (hslotR : slotR = if slot < 0 then (st.pci_devices_installed : Int) else slot)
    (hroom : ∀ primary, st.pci_devices slotR = some primary →
        primary.num_subdevices < PCI_MAX_PCIFUNCTIONS - 1)
    (hfree : ∀ primary, st.pci_devices slotR = some primary →
        primary.subdevices primary.num_subdevices = none) :
    ((∀ bank, (device.ops.initialize_registers bank).2 = false) →
      (RegisterPCIDevice st (some device) slot).1 = .err ∧
      (RegisterPCIDevice st (some device) slot).2.pci_devices = st.pci_devices ∧
      (RegisterPCIDevice st (some device) slot).2.pci_devices_installed =
        st.pci_devices_installed ∧
      (RegisterPCIDevice st (some device) slot).2.pci_caddress = st.pci_caddress ∧
      (RegisterPCIDevice st (some device) slot).2.rqueued_devices = st.rqueued_devices) ∧
    ((∀ bank, (device.ops.initialize_registers bank).2 = true) →
      (RegisterPCIDevice st (some device) slot).1 = .ok slotR ∧
      (st.pci_devices slotR = none →
        (RegisterPCIDevice st (some device) slot).2.pci_devices slotR =
          some (device.SetPCIId slotR 0) ∧
        (RegisterPCIDevice st (some device) slot).2.pci_devices_installed =
          st.pci_devices_installed + 1) ∧
      (∀ primary, st.pci_devices slotR = some primary →
        (RegisterPCIDevice st (some device) slot).2.pci_devices_installed =
          st.pci_devices_installed ∧
        ∃ p2, (RegisterPCIDevice st (some device) slot).2.pci_devices slotR = some p2 ∧
          p2.NumSubdevices = primary.NumSubdevices + 1)) := by
  rw [register_lazy_init st device slot h1 h2]
  set st1 := if st.pci_initialized then st else InitializePCI st with hst1def
  have hini1 : st1.pci_initialized = true := by
    rw [hst1def]
    split
    · assumption
    · rfl
  have hdev1 : st1.pci_devices = st.pci_devices := by
    rw [hst1def]
    split <;> rfl
  have hins1 : st1.pci_devices_installed = st.pci_devices_installed := by
    rw [hst1def]
    split <;> rfl
  have hcad1 : st1.pci_caddress = st.pci_caddress := by
    rw [hst1def]
    split <;> rfl
  have hrq1 : st1.rqueued_devices = st.rqueued_devices := by
    rw [hst1def]
    split <;> rfl
  have h2' : ¬(slot < 0 ∧ PCI_MAX_PCIDEVICES ≤ st1.pci_devices_installed) := by
    rw [hins1]
    exact h2
  have hslotR' : slotR = if slot < 0 then (st1.pci_devices_installed : Int) else slot := by
    rw [hins1]
    exact hslotR
  constructor
  · intro hfail
    cases hm : st1.pci_devices slotR with
    | none =>
        rw [register_empty_slot_fail st1 device slot slotR h1 h2' hini1 hslotR' hm (hfail _)]
        exact ⟨rfl, hdev1, hins1, hcad1, hrq1⟩
    | some primary =>
        have hm' : st.pci_devices slotR = some primary := by
          rw [← hdev1]
          exact hm
        rw [register_occupied_slot_fail st1 device primary slot slotR h1 h2' hini1 hslotR' hm
          (hroom primary hm') (hfail _)]
        exact ⟨rfl, hdev1, hins1, hcad1, hrq1⟩
  · intro hok
    cases hm : st1.pci_devices slotR with
    | none =>
        have hm' : st.pci_devices slotR = none := by
          rw [← hdev1]
          exact hm
        rw [register_empty_slot st1 device slot slotR h1 h2' hini1 hslotR' hm (hok _)]
        refine ⟨rfl, fun _ => ⟨by simp, by rw [show ({st1 with
            pci_cfg_data := fun a b c =>
              if a = slotR ∧ b = 0 then
                bit8 ((device.ops.initialize_registers
                  (fun r => st1.pci_cfg_data slotR 0 r)).1 c)
              else st1.pci_cfg_data a b c
            pci_devices := fun i =>
              if i = slotR then some (device.SetPCIId slotR 0) else st1.pci_devices i
            pci_devices_installed :=
              st1.pci_devices_installed + 1 : BusState}).pci_devices_installed =
            st1.pci_devices_installed + 1 from rfl, hins1]⟩,
          fun primary hp => absurd hp (by rw [hm']; exact fun h => Option.noConfusion h)⟩
    | some primary =>
        have hm' : st.pci_devices slotR = some primary := by
          rw [← hdev1]
          exact hm
        rw [register_occupied_slot st1 device primary slot slotR h1 h2' hini1 hslotR' hm
          (hroom primary hm') (hfree primary hm') (hok _)]
        refine ⟨rfl, fun hnone => absurd hm' (by rw [hnone]; exact fun h => Option.noConfusion h),
          fun p hp => ?_⟩
        have hpp : p = primary := by
          rw [hm'] at hp
          exact (Option.some.inj hp).symm
        rw [hpp]
        refine ⟨hins1, PCI_Device.mk primary.ops primary.pci_id primary.pci_subfunction
          (primary.num_subdevices + 1)
          (fun i2 => if i2 = primary.num_subdevices then
              some (device.SetPCIId slotR ((primary.num_subdevices : Int) + 1))
            else primary.subdevices i2), by simp, rfl⟩

/-- A device model whose register initialization hook always fails. -/
def failOps : DeviceOps :=
  { vendor_id := 0x1234
    device_id := 0x5678
    parse_write_register := fun _ _ value => (value : Int)
    parse_read_register := fun _ _ => -1
    override_read_register := fun _ _ => none
    initialize_registers := fun bank => (bank, false) }

/-- A fresh device with a failing initialization hook. -/
def failDevice : PCI_Device := PCI_Device.make failOps

/-- Witness for C7 at a concrete input: auto-registration of the failing
device on the one-device state returns the error value and leaves the slot
table, installed count, latch and queue unchanged. -/
theorem registration_hook_gate_witness :
    (RegisterPCIDevice oneDevState (some failDevice) (-1)).1 = .err ∧
    (RegisterPCIDevice oneDevState (some failDevice) (-1)).2.pci_devices =
      oneDevState.pci_devices ∧
    (RegisterPCIDevice oneDevState (some failDevice) (-1)).2.pci_devices_installed =
      oneDevState.pci_devices_installed ∧
    (RegisterPCIDevice oneDevState (some failDevice) (-1)).2.pci_caddress =
      oneDevState.pci_caddress ∧
    (RegisterPCIDevice oneDevState (some failDevice) (-1)).2.rqueued_devices =
      oneDevState.rqueued_devices :=
  (registration_hook_gate oneDevState failDevice (-1) 1 (by decide) (by decide) (by decide)
    (fun primary h => by simp [oneDevState] at h)
    (fun primary h => by simp [oneDevState] at h)).1 (fun bank => rfl)

/-! ## C9 -/

/-- A reachable state with one device registered at slot 0 (auto slot on a
fresh controller). -/
def registeredOnceState : BusState :=
  (RegisterPCIDevice initialBusState (some passDevice) (-1)).2

/-- Counterexample to C9 as stated: after shutdown of a reachable state
with a registered device, slot 0 of the slot table is still occupied
(`Deinitialize` never touches `pci_devices`), and a subsequent
auto-registration attaches to the stale primary, leaving the installed
count at 0, unlike on a never-initialized controller where it becomes 1. -/
theorem shutdown_slot_table_counterexample :
    ( Deinitialize registeredOnceState).pci_devices 0 ≠ none ∧
    (RegisterPCIDevice ( Deinitialize registeredOnceState)
        (some passDevice) (-1)).2.pci_devices_installed = 0 ∧
    (RegisterPCIDevice initialBusState (some passDevice) (-1)).2.pci_devices_installed = 1 := by
  refine ⟨?_, rfl, rfl⟩
  intro h
  have h2 : ( Deinitialize registeredOnceState).pci_devices 0 =
      some (passDevice.SetPCIId 0 0) := rfl
  rw [h2] at h
  exact Option.noConfusion h

/-- C9 (amended): after shutdown the latch reads 0, the installed count and
queue are cleared, the whole configuration store is zero, the lifecycle
flags are down, and shutdown is idempotent; the slot table, however, is
carried over unchanged rather than emptied. -/
theorem shutdown_resets_and_idempotent (st : BusState) :
    ( Deinitialize st).pci_caddress = 0 ∧
    ( Deinitialize st).pci_devices_installed = 0 ∧
    ( Deinitialize st).rqueued_devices = [] ∧
    ( Deinitialize st).pci_initialized = false ∧
    ( Deinitialize st).ports_installed = false ∧
    ( Deinitialize st).callback_installed = false ∧
    (∀ (a b : Int) (c : Nat), ( Deinitialize st).pci_cfg_data a b c = 0) ∧
    ( Deinitialize st).pci_devices = st.pci_devices ∧
    Deinitialize ( Deinitialize st) = Deinitialize st :=
  ⟨rfl, rfl, rfl, rfl, rfl, rfl, fun _ _ _ => rfl, rfl, rfl⟩

/-! ## C8 -/

/-- Auto-slot registration of a device with an always-succeeding hook onto
a controller whose next slot is free: the device becomes the primary of
slot `installed`, and the count increments. -/
theorem register_auto_step (s : BusState) (d : PCI_Device)
    (hroomy : s.pci_devices_installed < PCI_MAX_PCIDEVICES)
    (hempty : s.pci_devices (s.pci_devices_installed : Int) = none)
    (hok : ∀ bank, (d.ops.initialize_registers bank).2 = true) :
    (RegisterPCIDevice s (some d) (-1)).2.pci_devices_installed =
      s.pci_devices_installed + 1 ∧
    (RegisterPCIDevice s (some d) (-1)).2.pci_devices =
      fun i => if i = (s.pci_devices_installed : Int) then
        some (d.SetPCIId (s.pci_devices_installed : Int) 0)
      else s.pci_devices i := by
  have h1 : ¬((0 : Int) ≤ -1 ∧ (PCI_MAX_PCIDEVICES : Int) ≤ -1) := by
    simp [PCI_MAX_PCIDEVICES]
  have h2 : ¬((-1 : Int) < 0 ∧ PCI_MAX_PCIDEVICES ≤ s.pci_devices_installed) := by
    omega
  rw [register_lazy_init s d (-1) h1 h2]
  set st1 := if s.pci_initialized then s else InitializePCI s with hst1def
  have hini1 : st1.pci_initialized = true := by
    rw [hst1def]
    split
    · assumption
    · rfl
  have hdev1 : st1.pci_devices = s.pci_devices := by
    rw [hst1def]
    split <;> rfl
  have hins1 : st1.pci_devices_installed = s.pci_devices_installed := by
    rw [hst1def]
    split <;> rfl
  have h2' : ¬((-1 : Int) < 0 ∧ PCI_MAX_PCIDEVICES ≤ st1.pci_devices_installed) := by
    rw [hins1]
    exact h2
  have hslotR' : (s.pci_devices_installed : Int) =
      if (-1 : Int) < 0 then (st1.pci_devices_installed : Int) else -1 := by
    rw [if_pos (by omega : (-1 : Int) < 0), hins1]
  have hempty' : st1.pci_devices (s.pci_devices_installed : Int) = none := by
    rw [hdev1]
    exact hempty
  rw [register_empty_slot st1 d (-1) (s.pci_devices_installed : Int) h1 h2' hini1 hslotR'
    hempty' (hok _)]
  exact ⟨by simp [hins1], by funext i; simp [hdev1]⟩

/-- Folding auto-slot registrations of hook-succeeding devices over a
controller whose slots from `installed` upward are all free: devices land
in consecutive slots in list order, earlier slots are untouched, and slots
beyond the new count stay free. -/
theorem replay_fold (l : List PCI_Device) (s : BusState)
    (hall : ∀ d ∈ l, ∀ bank, (d.ops.initialize_registers bank).2 = true)
    (hlen : s.pci_devices_installed + l.length ≤ PCI_MAX_PCIDEVICES)
    (hempty : ∀ i : Int, (s.pci_devices_installed : Int) ≤ i → s.pci_devices i = none) :
    (l.foldl (fun acc d => (RegisterPCIDevice acc (some d) (-1)).2) s).pci_devices_installed =
      s.pci_devices_installed + l.length ∧
    (∀ i : Int, i < (s.pci_devices_installed : Int) →
      (l.foldl (fun acc d => (RegisterPCIDevice acc (some d) (-1)).2) s).pci_devices i =
        s.pci_devices i) ∧
    (∀ k : Nat, k < l.length → ∃ d, l[k]? = some d ∧
      (l.foldl (fun acc d => (RegisterPCIDevice acc (some d) (-1)).2) s).pci_devices
          ((s.pci_devices_installed + k : Nat) : Int) =
        some (d.SetPCIId ((s.pci_devices_installed + k : Nat) : Int) 0)) ∧
    (∀ i : Int, ((s.pci_devices_installed + l.length : Nat) : Int) ≤ i →
      (l.foldl (fun acc d => (RegisterPCIDevice acc (some d) (-1)).2) s).pci_devices i =
        none) := by
  induction l generalizing s with
  | nil =>
      refine ⟨by simp, fun i _ => rfl, fun k hk => absurd hk (by simp), ?_⟩
      intro i hi
      exact hempty i (by simpa using hi)
  | cons d l ih =>
      have hokd : ∀ bank, (d.ops.initialize_registers bank).2 = true :=
        hall d (List.mem_cons_self d l)
      have hall' : ∀ e ∈ l, ∀ bank, (e.ops.initialize_registers bank).2 = true :=
        fun e he => hall e (List.mem_cons_of_mem d he)
      have hroomy : s.pci_devices_installed < PCI_MAX_PCIDEVICES := by
        simp [List.length_cons] at hlen
        omega
      obtain ⟨hstep_inst, hstep_dev⟩ :=
        register_auto_step s d hroomy (hempty _ (le_refl _)) hokd
      set s1 := (RegisterPCIDevice s (some d) (-1)).2 with hs1def
      have hlen' : s1.pci_devices_installed + l.length ≤ PCI_MAX_PCIDEVICES := by
        rw [hstep_inst]
        simp [List.length_cons] at hlen
        omega
      have hempty' : ∀ i : Int, (s1.pci_devices_installed : Int) ≤ i →
          s1.pci_devices i = none := by
        intro i hi
        rw [hstep_inst] at hi
        simp only [hstep_dev]
        have hne : i ≠ (s.pci_devices_installed : Int) := by
          push_cast at hi
          omega
        rw [if_neg hne]
        exact hempty i (by push_cast at hi ⊢; omega)
      obtain ⟨ih_inst, ih_pres, ih_slot, ih_none⟩ := ih s1 hall' hlen' hempty'
      have hfold : (d :: l).foldl (fun acc e => (RegisterPCIDevice acc (some e) (-1)).2) s =
          l.foldl (fun acc e => (RegisterPCIDevice acc (some e) (-1)).2) s1 := by
        rw [List.foldl_cons]
      refine ⟨?_, ?_, ?_, ?_⟩
      · rw [hfold, ih_inst, hstep_inst]
        simp only [List.length_cons]
        omega
      · intro i hi
        rw [hfold]
        have hlt1 : i < (s1.pci_devices_installed : Int) := by
          rw [hstep_inst]
          push_cast
          omega
        rw [ih_pres i hlt1]
        simp only [hstep_dev]
        rw [if_neg (by omega)]
      · intro k hk
        match k with
        | 0 =>
            refine ⟨d, by simp, ?_⟩
            rw [hfold]
            have hlt1 : ((s.pci_devices_installed + 0 : Nat) : Int) <
                (s1.pci_devices_installed : Int) := by
              rw [hstep_inst]
              push_cast
              omega
            rw [ih_pres _ hlt1]
            simp only [hstep_dev]
            have hcast : ((s.pci_devices_installed + 0 : Nat) : Int) =
                (s.pci_devices_installed : Int) := by push_cast; omega
            rw [hcast, if_pos rfl]
        | Nat.succ k2 =>
            have hk2 : k2 < l.length := by
              simp only [List.length_cons] at hk
              omega
            obtain ⟨e, he, hslot⟩ := ih_slot k2 hk2
            refine ⟨e, by simpa using he, ?_⟩
            rw [hfold]
            have hcast : ((s.pci_devices_installed + (k2 + 1) : Nat) : Int) =
                ((s1.pci_devices_installed + k2 : Nat) : Int) := by
              rw [hstep_inst]
              push_cast
              omega
            rw [hcast]
            exact hslot
      · intro i hi
        rw [hfold]
        refine ih_none i ?_
        rw [hstep_inst]
        push_cast
        simp only [List.length_cons] at hi
        push_cast at hi
        omega

/-- C8: constructing the controller drains the pending queue through the
normal registration path in FIFO order (the k-th queued device, hooks
succeeding, lands in slot k with function 0), the installed count equals
the queue length, all later slots are empty, and the queue is empty
afterwards; queueing a device while no controller exists appends it when
the queue is below its bound of 16 and drops it (state unchanged) when the
queue is full. -/
theorem construct_replays_queue (st : BusState)
    (hq : st.rqueued_devices.length ≤ max_rqueued_devices)
    (hall : ∀ d ∈ st.rqueued_devices, ∀ bank, (d.ops.initialize_registers bank).2 = true) :
    (PCI_construct st).rqueued_devices = [] ∧
    (PCI_construct st).pci_devices_installed = st.rqueued_devices.length ∧
    (∀ k : Nat, k < st.rqueued_devices.length →
      ∃ d, st.rqueued_devices[k]? = some d ∧
        (PCI_construct st).pci_devices (k : Int) = some (d.SetPCIId (k : Int) 0)) ∧
    (∀ i : Int, (st.rqueued_devices.length : Int) ≤ i →
      (PCI_construct st).pci_devices i = none) ∧
    (∀ dev, st.rqueued_devices.length < max_rqueued_devices →
      (PCI_AddDevice false st dev).rqueued_devices = st.rqueued_devices ++ [dev]) ∧
    (∀ dev, max_rqueued_devices ≤ st.rqueued_devices.length →
      PCI_AddDevice false st dev = st) := by
  have hmax : PCI_MAX_PCIDEVICES = 32 := rfl
  have hrq16 : max_rqueued_devices = 16 := rfl
  set st0 : BusState := { st with pci_initialized := false
                                  pci_devices_installed := 0
                                  pci_devices := fun _ => none } with hst0
  have hlen0 : st0.pci_devices_installed + st.rqueued_devices.length ≤
      PCI_MAX_PCIDEVICES := by
    have : st0.pci_devices_installed = 0 := rfl
    omega
  obtain ⟨hinst, hpres, hslot, hnone⟩ :=
    replay_fold st.rqueued_devices st0 hall hlen0 (fun i _ => rfl)
  have hpc : PCI_construct st =
      { st.rqueued_devices.foldl (fun acc d => (RegisterPCIDevice acc (some d) (-1)).2) st0 with
          rqueued_devices := [] } := rfl
  refine ⟨by rw [hpc], ?_, ?_, ?_, ?_, ?_⟩
  · rw [hpc]
    show (st.rqueued_devices.foldl
        (fun acc d => (RegisterPCIDevice acc (some d) (-1)).2) st0).pci_devices_installed =
      st.rqueued_devices.length
    rw [hinst]
    have h0 : st0.pci_devices_installed = 0 := rfl
    omega
  · intro k hk
    obtain ⟨d, hd, hdev⟩ := hslot k hk
    refine ⟨d, hd, ?_⟩
    rw [hpc]
    show (st.rqueued_devices.foldl
        (fun acc d => (RegisterPCIDevice acc (some d) (-1)).2) st0).pci_devices (k : Int) =
      some (d.SetPCIId (k : Int) 0)
    have hcast : ((st0.pci_devices_installed + k : Nat) : Int) = (k : Int) := by
      have : st0.pci_devices_installed = 0 := rfl
      push_cast
      omega
    rw [hcast] at hdev
    exact hdev
  · intro i hi
    rw [hpc]
    show (st.rqueued_devices.foldl
        (fun acc d => (RegisterPCIDevice acc (some d) (-1)).2) st0).pci_devices i = none
    refine hnone i ?_
    have : st0.pci_devices_installed = 0 := rfl
    push_cast
    omega
  · intro dev h
    simp [PCI_AddDevice, h]
  · intro dev h
    simp [PCI_AddDevice, Nat.not_lt.mpr h]

/-- A second pass-through device with a distinct vendor id. -/
def passDeviceB : PCI_Device :=
  PCI_Device.make
    { vendor_id := 0x1002
      device_id := 0x4c42
      parse_write_register := fun _ _ value => (value : Int)
      parse_read_register := fun _ _ => -1
      override_read_register := fun _ _ => none
      initialize_registers := fun bank => (bank, true) }

/-- A pre-construction state with two devices queued. -/
def queuedState : BusState :=
  { initialBusState with rqueued_devices := [passDevice, passDeviceB] }

/-- Witness for C8 at a concrete input: constructing the controller over a
two-device queue empties the queue, installs two devices, and puts the
second queued device in slot 1. -/
theorem construct_replays_queue_witness :
    (PCI_construct queuedState).rqueued_devices = [] ∧
    (PCI_construct queuedState).pci_devices_installed =
      queuedState.rqueued_devices.length ∧
    (∃ d, queuedState.rqueued_devices[1]? = some d ∧
      (PCI_construct queuedState).pci_devices ((1 : Nat) : Int) =
        some (d.SetPCIId ((1 : Nat) : Int) 0)) :=
  have h := construct_replays_queue queuedState (by decide)
    (fun d hd => by
      simp [queuedState, initialBusState] at hd
      rcases hd with h | h <;> subst h <;> exact fun bank => rfl)
  ⟨h.1, h.2.1, h.2.2.1 1 (by decide)⟩
